import Mathlib

/-!
Shallow embedding of `fetch_deals.py` (Weekend Radar deal fetcher).

Conventions of the embedding:
* Python floats become `ℚ`; `round(x, 2)` and `round(x)` become round-half-to-even
  over `ℚ` (Python's documented rounding mode).
* Days are modelled as natural-number day ordinals with day `0` a Monday, so that
  `d % 7` equals Python's `datetime.weekday()` (Monday = 0 … Sunday = 6).
* HTTP interactions are modelled by explicit outcome values passed in as inputs:
  a transport-level failure (the `requests` call raising) is one constructor, and a
  completed response carries its status code and a body whose JSON parse may fail.
* Python code that can raise an uncaught exception is modelled in `Except Unit`;
  code whose exceptions are swallowed by a `try/except: continue` block returns
  `Option`/default values instead.
-/

namespace WeekendRadar

/-- Python's `round` to an integer: round half to even (banker's rounding). -/
def rndHalfEven (q : ℚ) : ℤ :=
  if Int.fract q < 1/2 then ⌊q⌋
  else if 1/2 < Int.fract q then ⌊q⌋ + 1
  else if ⌊q⌋ % 2 = 0 then ⌊q⌋ else ⌊q⌋ + 1

/-- Python's `round(x, 2)`: round half to even at two decimal places. -/
def pyRound2 (q : ℚ) : ℚ := (rndHalfEven (q * 100) : ℚ) / 100

/-- `ORIGINS` from the configuration block. -/
def ORIGINS : List String := ["LAX", "ONT", "SNA"]

/-- `DESTINATIONS` from the configuration block. -/
def DESTINATIONS : List String :=
  ["LAS", "SFO", "PHX", "SEA", "DEN", "SAN", "PDX",
   "SLC", "BOS", "NYC", "MIA", "AUS", "CHI", "ATL",
   "HNL", "OGG", "LIH"]

/-- The markup multiplier hardcoded in `fetch_flights` (`price * 1.40`). -/
def MARKUP : ℚ := 140 / 100

/-- One flight-deal record appended by `fetch_flights` (and by
`generate_sample_flights`).  Dates are day ordinals, `foundAt` is an abstract
timestamp. -/
structure FlightDeal where
  origin : String
  destination : String
  price : ℚ
  originalPrice : ℚ
  airline : String
  departureDate : ℕ
  returnDate : ℕ
  savings : ℚ
  savingsPercent : ℤ
  isHot : Bool
  foundAt : ℕ
  bookingUrl : String
deriving DecidableEq, Repr

/-- The deal-scoring and record construction of `fetch_flights` (lines 111-135):
`original = round(price * 1.40, 2)`, `savings = round(original - price, 2)`,
`savings_pct = round((savings / original) * 100)`, `is_hot = savings_pct >= 35`. -/
def mkFlightDeal (origin dest : String) (price : ℚ) (airline : String)
    (depart ret : ℕ) (now : ℕ) : FlightDeal :=
  let original := pyRound2 (price * MARKUP)
  let savings := pyRound2 (original - price)
  let savings_pct := rndHalfEven ((savings / original) * 100)
  { origin := origin
    destination := dest
    price := price
    originalPrice := original
    airline := airline
    departureDate := depart
    returnDate := ret
    savings := savings
    savingsPercent := savings_pct
    isHot := decide (35 ≤ savings_pct)
    foundAt := now
    bookingUrl := "https://www.kayak.com/flights/" ++ origin ++ "-" ++ dest ++ "/"
      ++ toString depart ++ "/" ++ toString ret }

/-- `days_to_friday` computed in `fetch_flights`:
`(4 - today.weekday()) % 7`, replaced by `7` when `0`.  Over ℕ, with
`today % 7` the Python weekday, `(4 - w) mod 7 = (11 - w) % 7`. -/
def days_to_friday (today : ℕ) : ℕ :=
  let d := (11 - today % 7) % 7
  if d = 0 then 7 else d

/-- The departure Friday for weekend number `week` (the code uses `week ∈ {1, 2}`):
`friday = today + timedelta(days=days_to_friday + (week-1)*7)`. -/
def fridayOfWeek (today week : ℕ) : ℕ := today + days_to_friday today + (week - 1) * 7

/-- The return Sunday for weekend number `week`: `sunday = friday + timedelta(days=2)`. -/
def sundayOfWeek (today week : ℕ) : ℕ := fridayOfWeek today week + 2

/-- Body of a successful JSON parse of the OAuth token response; the
`access_token` key may be absent. -/
structure TokenBody where
  access_token : Option String
deriving DecidableEq

/-- Outcome of the single `requests.post` in `get_amadeus_token`: either the call
raises (transport failure) or a response arrives with a status code and a body
whose JSON parse may itself fail. -/
inductive PostOutcome where
  | transportError
  | response (status : ℕ) (body : Except Unit TokenBody)

/-- `get_amadeus_token` (lines 48-65).  There is no `try/except` in this function:
a transport failure of the POST, or a 200 response whose body does not parse or
lacks `access_token`, raises out of the function (`Except.error`).  An empty
credential returns `None` immediately; a completed non-200 response returns
`None`. -/
def get_amadeus_token (key secret : String) (post : PostOutcome) :
    Except Unit (Option String) :=
  if key = "" || secret = "" then .ok none
  else
    match post with
    | .transportError => .error ()
    | .response status body =>
      if status = 200 then
        match body with
        | .error _ => .error ()
        | .ok b =>
          match b.access_token with
          | some t => .ok (some t)
          | none => .error ()
      else .ok none

/-- One flight offer in the `data` array of a flight-offers response.
`priceTotal = none` models a missing `price`/`total` key or an unparsable price
string (`float(...)` raising); `airlineCodes` is `validatingAirlineCodes`. -/
structure Offer where
  priceTotal : Option ℚ
  airlineCodes : List String

/-- Parsed body of a flight-offers response; `data = none` models the `"data"`
key being absent. -/
structure FlightBody where
  data : Option (List Offer)

/-- Outcome of one `requests.get` for a single route in `fetch_flights`. -/
inductive RouteOutcome where
  | transportError
  | response (status : ℕ) (body : Except Unit FlightBody)

/-- The body of the per-route `try` block in `fetch_flights` (lines 92-140).
Every exception (transport error, JSON parse error, missing fields) is caught by
`except Exception: continue`, and a non-200 status or empty `data` array simply
appends nothing, so the result is `Option`: `some` exactly when a deal record is
appended for the route. -/
def processRoute (origin dest : String) (depart ret now : ℕ)
    (o : RouteOutcome) : Option FlightDeal :=
  match o with
  | .transportError => none
  | .response status body =>
    if status = 200 then
      match body with
      | .error _ => none
      | .ok b =>
        match b.data with
        | none => none
        | some [] => none
        | some (best :: _) =>
          match best.priceTotal, best.airlineCodes with
          | some price, airline :: _ =>
            some (mkFlightDeal origin dest price airline depart ret now)
          | _, _ => none
    else none

/-- One cell of the weekend × origin × destination grid of `fetch_flights`. -/
structure Query where
  week : ℕ
  origin : String
  dest : String
deriving DecidableEq

/-- The iteration grid of `fetch_flights`: `for week in range(1, 3)`, then
`for origin in ORIGINS`, then `for dest in DESTINATIONS`. -/
def queryGrid : List Query :=
  [1, 2].flatMap fun w =>
    ORIGINS.flatMap fun o =>
      DESTINATIONS.map fun d => ⟨w, o, d⟩

/-- The list `deals` accumulated by the route loops of `fetch_flights`, given an
oracle describing each route's upstream outcome. -/
def liveDeals (oracle : Query → RouteOutcome) (today now : ℕ) : List FlightDeal :=
  queryGrid.filterMap fun q =>
    processRoute q.origin q.dest (fridayOfWeek today q.week) (sundayOfWeek today q.week)
      now (oracle q)

/-- The comparison used by `deals.sort(key=lambda x: x['savingsPercent'], reverse=True)`:
descending by `savingsPercent` (a stable sort keeps discovery order on ties). -/
def dealLE (a b : FlightDeal) : Bool := decide (b.savingsPercent ≤ a.savingsPercent)

/-- `generate_sample_flights` (lines 148-178): the fixed sample set, with the
Friday/Sunday date fields and the `foundAt` timestamps computed from the current
time.  `friday = today + timedelta(days=(4 - today.weekday()) % 7 or 7)`. -/
def generate_sample_flights (today now : ℕ) : List FlightDeal :=
  let friday := today + days_to_friday today
  let sunday := friday + 2
  [ { origin := "LAX", destination := "LAS", price := 89, originalPrice := 156
      airline := "Spirit", departureDate := friday, returnDate := sunday
      savings := 67, savingsPercent := 43, isHot := true, foundAt := now
      bookingUrl := "https://www.kayak.com/flights/LAX-LAS" },
    { origin := "ONT", destination := "SFO", price := 124, originalPrice := 198
      airline := "United", departureDate := friday, returnDate := sunday
      savings := 74, savingsPercent := 37, isHot := true, foundAt := now
      bookingUrl := "https://www.kayak.com/flights/ONT-SFO" },
    { origin := "SNA", destination := "PHX", price := 67, originalPrice := 134
      airline := "American", departureDate := friday, returnDate := sunday
      savings := 67, savingsPercent := 50, isHot := true, foundAt := now
      bookingUrl := "https://www.kayak.com/flights/SNA-PHX" } ]

/-- `fetch_flights` (lines 67-146).  An exception escaping `get_amadeus_token`
propagates (nothing catches it); `token = None` returns the sample set; otherwise
the accumulated `deals` are sorted descending by `savingsPercent` (stable) and
the first 50 are returned, or the sample set when `deals` is empty. -/
def fetch_flights (key secret : String) (post : PostOutcome)
    (oracle : Query → RouteOutcome) (today now : ℕ) :
    Except Unit (List FlightDeal) :=
  match get_amadeus_token key secret post with
  | .error e => .error e
  | .ok none => .ok (generate_sample_flights today now)
  | .ok (some _) =>
    let deals := liveDeals oracle today now
    if deals.isEmpty then .ok (generate_sample_flights today now)
    else .ok ((deals.mergeSort dealLE).take 50)

/-- One entry of an event's `priceRanges` array; `min`/`max` are read with
`.get(..., 0)`. -/
structure PriceRange where
  lo : Option ℚ
  hi : Option ℚ

/-- The `segment` object of a classification; its `name` is read with
`.get("name", "Event")`. -/
structure Segment where
  segName : Option String

/-- One entry of an event's `classifications` array; `segment` is read with
`.get("segment", {})`. -/
structure Classification where
  segment : Option Segment

/-- One entry of an event's `images` array; `url` is read with `.get("url", "")`. -/
structure EventImage where
  url : Option String

/-- One entry of `_embedded.venues`; the code indexes `["name"]` directly, so a
missing name raises. -/
structure Venue where
  venueName : Option String

/-- One raw event from the events-discovery upstream, as read by `fetch_events`
(lines 256-270).  `none` at each field models the corresponding JSON key being
absent.  Keys the code indexes directly (`name`, `_embedded.venues[0].name`,
`dates.start.localDate`) raise `KeyError`/`IndexError` when missing; keys read
via `.get` fall back to defaults.  The nested direct-access paths
(`_embedded → venues`, `dates → start → localDate`) are collapsed into single
optional fields, which is faithful because a missing key anywhere on such a path
raises. -/
structure RawEvent where
  name : Option String
  venues : Option (List Venue)
  localDate : Option String
  localTime : Option String
  priceRanges : Option (List PriceRange)
  classifications : Option (List Classification)
  url : Option String
  images : Option (List EventImage)

/-- The normalized record appended to `events` by `fetch_events`. -/
structure EventRecord where
  name : String
  city : String
  venue : String
  date : String
  time : String
  priceMin : ℚ
  priceMax : ℚ
  category : String
  url : String
  imageUrl : String
deriving DecidableEq, Repr

/-- The per-event normalization of `fetch_events` (lines 256-270).  It runs
inside the per-city `try` block, so any raised exception (`Except.error`) aborts
the city's processing.  `price_info = event.get("priceRanges", [{}])[0]` — note
that a *present but empty* `priceRanges` list raises `IndexError`, while an
absent one yields the empty dict; the same pattern is used for
`classifications` and `images`. -/
def normalizeEvent (city : String) (e : RawEvent) : Except Unit EventRecord :=
  match e.priceRanges with
  | some [] => .error ()
  | _ =>
    let price_info :=
      match e.priceRanges with
      | some (p :: _) => p
      | _ => ⟨none, none⟩
    match e.name with
    | none => .error ()
    | some nm =>
      match e.venues with
      | none => .error ()
      | some [] => .error ()
      | some (v :: _) =>
        match v.venueName with
        | none => .error ()
        | some vn =>
          match e.localDate with
          | none => .error ()
          | some dt =>
            match e.classifications with
            | some [] => .error ()
            | _ =>
              let category :=
                match e.classifications with
                | some (c :: _) => ((c.segment.bind Segment.segName).getD "Event")
                | _ => "Event"
              match e.images with
              | some [] => .error ()
              | _ =>
                let imageUrl :=
                  match e.images with
                  | some (i :: _) => i.url.getD ""
                  | _ => ""
                .ok { name := nm
                      city := city
                      venue := vn
                      date := dt
                      time := e.localTime.getD "TBD"
                      priceMin := price_info.lo.getD 0
                      priceMax := price_info.hi.getD 0
                      category := category
                      url := e.url.getD ""
                      imageUrl := imageUrl }

/-- The `location` object of a place result; `locality` is read with
`.get('locality', city_name)`. -/
structure PlaceLocation where
  locality : Option String

/-- One entry of a place's `categories` array; the code indexes `["name"]`
directly inside a comprehension. -/
structure PlaceCategory where
  catName : Option String

/-- One raw place from the places-search upstream, as read by
`fetch_dining_foursquare` / `fetch_bars_foursquare` (the two loops are
identical apart from the category filter and the `type` string).  Direct
indexing (`name`, `location`, `fsq_id`, a category's `name`) raises when the key
is absent; `rating`, `price`, `categories` and `stats.total_ratings` are read
with `.get` defaults. -/
structure RawPlace where
  name : Option String
  location : Option PlaceLocation
  rating : Option ℚ
  price : Option ℕ
  categories : List PlaceCategory
  totalRatings : Option ℕ
  fsq_id : Option String

/-- The normalized record appended to `dining`/`bars`. -/
structure PlaceRecord where
  name : String
  location : String
  rating : ℚ
  priceLevel : String
  categories : List String
  reviewCount : ℕ
  url : String
  type : String
deriving DecidableEq, Repr

/-- The category-name comprehension `[cat["name"] for cat in place.get("categories", [])[:2]]`:
left to right, raising on the first missing name. -/
def catNames : List PlaceCategory → Option (List String)
  | [] => some []
  | c :: cs =>
    match c.catName, catNames cs with
    | some n, some ns => some (n :: ns)
    | _, _ => none

/-- The per-place normalization shared by `fetch_dining_foursquare`
(lines 344-354) and `fetch_bars_foursquare` (lines 397-407); `ptype` is the
`type` discriminator (`"dining"` or `"bars"`).
`priceLevel = "$" * place.get("price", 2)`; `rating` is halved to a 0-5 scale;
it runs inside the per-city `try`, so a raised error aborts the city. -/
def normalizePlace (cityName ptype : String) (p : RawPlace) :
    Except Unit PlaceRecord :=
  match p.name with
  | none => .error ()
  | some nm =>
    match p.location with
    | none => .error ()
    | some loc =>
      match catNames (p.categories.take 2) with
      | none => .error ()
      | some cats =>
        match p.fsq_id with
        | none => .error ()
        | some fid =>
          .ok { name := nm
                location := loc.locality.getD cityName
                rating := p.rating.getD 0 / 2
                priceLevel := String.mk (List.replicate (p.price.getD 2) '$')
                categories := cats
                reviewCount := p.totalRatings.getD 0
                url := "https://foursquare.com/v/" ++ fid
                type := ptype }

/-- Parsed body of a places-search response; `results` is read with
`data.get("results", [])`. -/
structure PlacesBody where
  results : Option (List RawPlace)

/-- Outcome of one `requests.get` for a single city in the dining/bars fetchers. -/
inductive CityOutcome where
  | transportError
  | response (status : ℕ) (body : Except Unit PlacesBody)

/-- Appending loop over a city's results: records are appended one by one, and
the first normalization error aborts the city (already-appended records are
kept, since the `except` block only logs). -/
def appendPlaces (cityName ptype : String) : List RawPlace → List PlaceRecord
  | [] => []
  | p :: ps =>
    match normalizePlace cityName ptype p with
    | .ok r => r :: appendPlaces cityName ptype ps
    | .error _ => []

/-- The per-city `try` block shared by the dining/bars fetchers: a transport
error, a JSON parse failure or a non-200 status contributes nothing for the
city; otherwise the city's results are normalized and appended until the first
error. -/
def processCity (cityName ptype : String) (o : CityOutcome) : List PlaceRecord :=
  match o with
  | .transportError => []
  | .response status body =>
    if status = 200 then
      match body with
      | .error _ => []
      | .ok b => appendPlaces cityName ptype (b.results.getD [])
    else []

/-- The `cities` coordinate table shared by `fetch_dining_foursquare` and
`fetch_bars_foursquare`. -/
def placesCities : List (String × String) :=
  [("Las Vegas", "36.1699,-115.1398"),
   ("San Francisco", "37.7749,-122.4194"),
   ("Phoenix", "33.4484,-112.0740")]

/-- `fetch_dining_foursquare` (lines 311-362).  Returns the collected records
together with the number of upstream requests issued; with an empty credential
it returns immediately (`return []`), issuing no request. -/
def fetch_dining_foursquare (key : String) (oracle : String → CityOutcome) :
    List PlaceRecord × ℕ :=
  if key = "" then ([], 0)
  else
    (placesCities.flatMap fun c => processCity c.1 "dining" (oracle c.1),
     placesCities.length)

/-- `fetch_bars_foursquare` (lines 364-415), identical to the dining fetcher
apart from the category filter (not observable here) and the `type` string. -/
def fetch_bars_foursquare (key : String) (oracle : String → CityOutcome) :
    List PlaceRecord × ℕ :=
  if key = "" then ([], 0)
  else
    (placesCities.flatMap fun c => processCity c.1 "bars" (oracle c.1),
     placesCities.length)

/-- The single-route failure modes named by the spec: a transport error, a
non-200 status, a JSON parse error, or missing fields (`data` key absent, or the
first offer lacking a parsable price or any airline code). -/
def routeFails (o : RouteOutcome) : Bool :=
  match o with
  | .transportError => true
  | .response status body =>
    decide (status ≠ 200) ||
    (match body with
     | .error _ => true
     | .ok b =>
       match b.data with
       | none => true
       | some [] => false
       | some (best :: _) => best.priceTotal.isNone || best.airlineCodes.isEmpty)

/-! ### Helper lemmas about round-half-to-even -/

theorem rndHalfEven_le_add_half (q : ℚ) : (rndHalfEven q : ℚ) ≤ q + 1/2 := by
  have h0 := Int.fract_nonneg q
  have h1 := Int.fract_lt_one q
  have hq : (⌊q⌋ : ℚ) = q - Int.fract q := by rw [Int.fract]; ring
  unfold rndHalfEven
  split_ifs <;> push_cast <;> linarith

theorem sub_half_le_rndHalfEven (q : ℚ) : q - 1/2 ≤ (rndHalfEven q : ℚ) := by
  have h0 := Int.fract_nonneg q
  have h1 := Int.fract_lt_one q
  have hq : (⌊q⌋ : ℚ) = q - Int.fract q := by rw [Int.fract]; ring
  unfold rndHalfEven
  split_ifs <;> push_cast <;> linarith

theorem rndHalfEven_intCast (n : ℤ) : rndHalfEven (n : ℚ) = n := by
  unfold rndHalfEven
  simp [Int.fract_intCast]

theorem rndHalfEven_le_of_lt_add_half {q : ℚ} {k : ℤ} (h : q < (k : ℚ) + 1/2) :
    rndHalfEven q ≤ k := by
  have h1 := rndHalfEven_le_add_half q
  have h2 : (rndHalfEven q : ℚ) < (k : ℚ) + 1 := by linarith
  exact_mod_cast Int.lt_add_one_iff.mp (by exact_mod_cast h2)

/-! ### Claims -/

/-- C1: every FlightDeal built on the live path satisfies
`originalPrice = round(price * MARKUP, 2)`,
`savings = round(originalPrice - price, 2)`,
`savingsPercent = round(100 * savings / originalPrice)` and
`isHot ↔ savingsPercent ≥ 35`. -/
theorem C1_flight_deal_invariants (origin dest airline : String) (price : ℚ)
    (dep ret now : ℕ) :
    (mkFlightDeal origin dest price airline dep ret now).originalPrice =
      pyRound2 (price * MARKUP) ∧
    (mkFlightDeal origin dest price airline dep ret now).savings =
      pyRound2 ((mkFlightDeal origin dest price airline dep ret now).originalPrice - price) ∧
    (mkFlightDeal origin dest price airline dep ret now).savingsPercent =
      rndHalfEven (100 * (mkFlightDeal origin dest price airline dep ret now).savings /
        (mkFlightDeal origin dest price airline dep ret now).originalPrice) ∧
    ((mkFlightDeal origin dest price airline dep ret now).isHot = true ↔
      35 ≤ (mkFlightDeal origin dest price airline dep ret now).savingsPercent) := by
  simp only [mkFlightDeal]
  refine ⟨trivial, trivial, ?_, by simp⟩
  congr 1
  ring

/-- C2 counterexample: with both credentials present, a transport failure of the
single POST raises out of `get_amadeus_token` instead of returning "no token". -/
theorem C2_counterexample :
    get_amadeus_token "key" "secret" PostOutcome.transportError = Except.error () := rfl

/-- C2 (amended): `get_amadeus_token` returns "no token" when either credential
is empty, and when the POST completes with any non-200 status; but a transport
failure of the POST (or a 200 response with an unusable body) raises out of the
component. -/
theorem C2_amended_no_token (key secret : String) (post : PostOutcome)
    (h : key = "" ∨ secret = "" ∨
      ∃ status body, post = PostOutcome.response status body ∧ status ≠ 200) :
    get_amadeus_token key secret post = .ok none := by
  rcases h with h | h | ⟨s, b, rfl, hs⟩
  · simp [get_amadeus_token, h]
  · simp [get_amadeus_token, h]
  · unfold get_amadeus_token
    split
    · rfl
    · simp [hs]

theorem C2_amended_no_token_witness :
    get_amadeus_token "key" "secret" (PostOutcome.response 401 (.ok ⟨none⟩)) = .ok none :=
  C2_amended_no_token "key" "secret" _ (Or.inr (Or.inr ⟨401, .ok ⟨none⟩, rfl, by decide⟩))

/-- C4: the first departure Friday is strictly in the future (2 days ahead from a
Wednesday, 7 from a Friday, and in general `(4 - weekday) mod 7` days ahead with
`0` replaced by `7`); each subsequent weekend adds 7 days and each return Sunday
is its Friday plus 2 days. -/
theorem C4_weekend_dates (today week : ℕ) (hw : 1 ≤ week) :
    today < fridayOfWeek today 1 ∧
    (today % 7 = 2 → fridayOfWeek today 1 = today + 2) ∧
    (today % 7 = 4 → fridayOfWeek today 1 = today + 7) ∧
    (days_to_friday today : ℤ) =
      (if (4 - (today % 7 : ℕ) : ℤ) % 7 = 0 then 7 else (4 - (today % 7 : ℕ) : ℤ) % 7) ∧
    fridayOfWeek today (week + 1) = fridayOfWeek today week + 7 ∧
    sundayOfWeek today week = fridayOfWeek today week + 2 := by
  refine ⟨?_, ?_, ?_, ?_, ?_, ?_⟩
  · simp only [fridayOfWeek, days_to_friday]
    split <;> omega
  · intro h
    simp only [fridayOfWeek, days_to_friday]
    split <;> omega
  · intro h
    simp only [fridayOfWeek, days_to_friday]
    split <;> omega
  · unfold days_to_friday
    split_ifs <;> push_cast <;> omega
  · unfold fridayOfWeek; omega
  · rfl

theorem C4_weekend_dates_witness :
    2 < fridayOfWeek 2 1 ∧ fridayOfWeek 2 1 = 2 + 2 ∧
    fridayOfWeek 4 1 = 4 + 7 ∧
    fridayOfWeek 2 2 = fridayOfWeek 2 1 + 7 ∧
    sundayOfWeek 2 1 = fridayOfWeek 2 1 + 2 :=
  ⟨(C4_weekend_dates 2 1 (by decide)).1,
   (C4_weekend_dates 2 1 (by decide)).2.1 rfl,
   (C4_weekend_dates 4 1 (by decide)).2.2.1 rfl,
   (C4_weekend_dates 2 1 (by decide)).2.2.2.2.1,
   (C4_weekend_dates 2 1 (by decide)).2.2.2.2.2⟩

/-- C9: with the places-search credential absent, both the Dining and the Bars
fetcher return the empty collection and issue zero upstream requests, whatever
the upstream would have answered. -/
theorem C9_no_credential_empty (oracle oracle' : String → CityOutcome) :
    fetch_dining_foursquare "" oracle = ([], 0) ∧
    fetch_bars_foursquare "" oracle' = ([], 0) :=
  ⟨rfl, rfl⟩

theorem processRoute_eq_none_of_routeFails (origin dest : String) (dep ret now : ℕ)
    {o : RouteOutcome} (h : routeFails o = true) :
    processRoute origin dest dep ret now o = none := by
  cases o with
  | transportError => rfl
  | response status body =>
    by_cases hs : status = 200
    · subst hs
      rcases body with e | b
      · simp [processRoute]
      · rcases hb : b.data with _ | ⟨_ | ⟨best, rest⟩⟩
        · simp [processRoute, hb]
        · simp [routeFails, hb] at h
        · rcases hp : best.priceTotal with _ | p
          · simp [processRoute, hb, hp]
          · rcases ha : best.airlineCodes with _ | ⟨a, as⟩
            · simp [processRoute, hb, hp, ha]
            · simp [routeFails, hb, hp, ha] at h
    · simp [processRoute, hs]

/-- C3: per-route failure isolation in `fetch_flights` — when one route's
request fails (transport error, non-200 status, malformed JSON or missing
fields), the fetch runs to completion and its output equals, record for record,
the output it would have produced had that route returned zero results, with all
other routes unchanged. -/
theorem C3_route_failure_isolation (key secret : String) (post : PostOutcome)
    (oracle oracleZ : Query → RouteOutcome) (q0 : Query) (today now : ℕ)
    (hfail : routeFails (oracle q0) = true)
    (hzero : oracleZ q0 = RouteOutcome.response 200 (.ok ⟨some []⟩))
    (hagree : ∀ q, q ≠ q0 → oracleZ q = oracle q) :
    fetch_flights key secret post oracle today now =
      fetch_flights key secret post oracleZ today now := by
  have hdeals : liveDeals oracle today now = liveDeals oracleZ today now := by
    unfold liveDeals
    apply List.filterMap_congr
    intro q _
    by_cases hq0 : q = q0
    · subst hq0
      rw [hzero, processRoute_eq_none_of_routeFails _ _ _ _ _ hfail]
      rfl
    · rw [hagree q hq0]
  unfold fetch_flights
  rw [hdeals]

theorem C3_route_failure_isolation_witness :
    fetch_flights "key" "secret" (PostOutcome.response 200 (.ok ⟨some "tok"⟩))
        (fun _ => RouteOutcome.transportError) 0 0 =
      fetch_flights "key" "secret" (PostOutcome.response 200 (.ok ⟨some "tok"⟩))
        (fun q => if q = ⟨1, "LAX", "LAS"⟩
          then RouteOutcome.response 200 (.ok ⟨some []⟩)
          else RouteOutcome.transportError) 0 0 :=
  C3_route_failure_isolation "key" "secret" _ _ _ ⟨1, "LAX", "LAS"⟩ 0 0
    rfl (by simp) (fun q hq => if_neg hq)

/-- C6: the Flights fetcher returns exactly the fixed built-in sample set both
when no token is obtainable and when the live route queries yield an empty
collection; the sample set is the fixed three records, with only the
Friday/Sunday dates and the discovery timestamps computed from the current
time. -/
theorem C6_sample_fallback (key secret : String) (post : PostOutcome)
    (oracle : Query → RouteOutcome) (today now : ℕ)
    (h : get_amadeus_token key secret post = .ok none ∨
         ((∃ t, get_amadeus_token key secret post = .ok (some t)) ∧
          liveDeals oracle today now = [])) :
    fetch_flights key secret post oracle today now =
      .ok (generate_sample_flights today now) ∧
    (generate_sample_flights today now).map
        (fun d => (d.origin, d.destination, d.price, d.originalPrice, d.airline,
                   d.savings, d.savingsPercent, d.isHot)) =
      [("LAX", "LAS", 89, 156, "Spirit", 67, 43, true),
       ("ONT", "SFO", 124, 198, "United", 74, 37, true),
       ("SNA", "PHX", 67, 134, "American", 67, 50, true)] ∧
    ∀ d ∈ generate_sample_flights today now,
      d.departureDate = today + days_to_friday today ∧
      d.returnDate = today + days_to_friday today + 2 ∧
      d.foundAt = now := by
  refine ⟨?_, by simp [generate_sample_flights], ?_⟩
  · rcases h with h | ⟨⟨t, ht⟩, hd⟩
    · unfold fetch_flights; rw [h]
    · unfold fetch_flights; rw [ht]; simp [hd]
  · intro d hd
    simp only [generate_sample_flights, List.mem_cons, List.not_mem_nil, or_false] at hd
    rcases hd with rfl | rfl | rfl <;> exact ⟨rfl, rfl, rfl⟩

theorem C6_sample_fallback_witness :
    fetch_flights "" "" PostOutcome.transportError (fun _ => RouteOutcome.transportError)
        0 0 = .ok (generate_sample_flights 0 0) :=
  (C6_sample_fallback "" "" PostOutcome.transportError (fun _ => RouteOutcome.transportError)
    0 0 (Or.inl rfl)).1

theorem dealLE_trans (a b c : FlightDeal) (hab : dealLE a b) (hbc : dealLE b c) :
    dealLE a c := by
  simp only [dealLE, decide_eq_true_eq] at *
  omega

theorem dealLE_total (a b : FlightDeal) : dealLE a b || dealLE b a := by
  simp only [dealLE, Bool.or_eq_true, decide_eq_true_eq]
  omega

theorem pair_get_sublist {α : Type _} (l : List α) (i j : ℕ) (hi : i < l.length)
    (hj : j < l.length) (hij : i < j) :
    List.Sublist [l.get ⟨i, hi⟩, l.get ⟨j, hj⟩] l := by
  induction l generalizing i j with
  | nil => simp at hi
  | cons x xs ih =>
    simp only [List.length_cons] at hi hj
    cases i with
    | zero =>
      cases j with
      | zero => omega
      | succ j' =>
        exact List.Sublist.cons₂ x
          (List.singleton_sublist.mpr (List.get_mem xs _ _))
    | succ i' =>
      cases j with
      | zero => omega
      | succ j' =>
        exact List.Sublist.cons x (ih i' j' (by omega) (by omega) (by omega))

/-- C5 counterexample: a run of the Flights fetcher that falls back to the
sample data (here: empty credentials) returns a collection whose
`savingsPercent` sequence is 43, 37, 50 — not sorted in descending order. -/
theorem C5_counterexample :
    fetch_flights "" "" PostOutcome.transportError (fun _ => RouteOutcome.transportError)
        0 0 = .ok (generate_sample_flights 0 0) ∧
    ¬ (generate_sample_flights 0 0).Pairwise
        (fun a b => b.savingsPercent ≤ a.savingsPercent) := by
  refine ⟨rfl, fun h => ?_⟩
  simp [generate_sample_flights, List.pairwise_cons] at h

/-- C5 (amended): on the live path, whenever a token is obtained and the route
queries produce at least one record, the returned collection is the stable
descending sort of the discovered deals by `savingsPercent` truncated to 50:
it is sorted descending, has length at most 50, and any two discovered records
with equal `savingsPercent` stay in discovery order in the sorted collection.
A fallback run instead returns the fixed sample set as-is, which is not sorted
by `savingsPercent`. -/
theorem C5_amended_sorted_truncated (key secret : String) (post : PostOutcome)
    (oracle : Query → RouteOutcome) (today now : ℕ) (t : String)
    (htok : get_amadeus_token key secret post = .ok (some t))
    (hne : (liveDeals oracle today now).isEmpty = false) :
    fetch_flights key secret post oracle today now =
      .ok (((liveDeals oracle today now).mergeSort dealLE).take 50) ∧
    (((liveDeals oracle today now).mergeSort dealLE).take 50).Pairwise
      (fun a b => b.savingsPercent ≤ a.savingsPercent) ∧
    (((liveDeals oracle today now).mergeSort dealLE).take 50).length ≤ 50 ∧
    (∀ (i j : ℕ) (hi : i < (liveDeals oracle today now).length)
      (hj : j < (liveDeals oracle today now).length), i < j →
      ((liveDeals oracle today now).get ⟨i, hi⟩).savingsPercent =
        ((liveDeals oracle today now).get ⟨j, hj⟩).savingsPercent →
      List.Sublist
        [(liveDeals oracle today now).get ⟨i, hi⟩,
         (liveDeals oracle today now).get ⟨j, hj⟩]
        ((liveDeals oracle today now).mergeSort dealLE)) := by
  refine ⟨?_, ?_, ?_, ?_⟩
  · unfold fetch_flights
    rw [htok]
    simp [hne]
  · have hs := List.sorted_mergeSort dealLE_trans dealLE_total (liveDeals oracle today now)
    have hs' := hs.imp (fun h => by simpa [dealLE] using h)
    exact hs'.sublist (List.take_sublist _ _)
  · rw [List.length_take]
    exact min_le_left _ _
  · intro i j hi hj hij heq
    exact List.pair_sublist_mergeSort dealLE_trans dealLE_total
      (by simp only [dealLE, decide_eq_true_eq]; exact le_of_eq heq.symm)
      (pair_get_sublist _ i j hi hj hij)

/-- A concrete oracle for which exactly one route (the first grid cell)
returns a single offer and every other route fails. -/
def oneDealOracle : Query → RouteOutcome := fun q =>
  if q = ⟨1, "LAX", "LAS"⟩
  then RouteOutcome.response 200 (.ok ⟨some [{ priceTotal := some 100, airlineCodes := ["AA"] }]⟩)
  else RouteOutcome.transportError

theorem C5_amended_sorted_truncated_witness :
    fetch_flights "key" "secret" (PostOutcome.response 200 (.ok ⟨some "tok"⟩))
        oneDealOracle 0 0 =
      .ok (((liveDeals oneDealOracle 0 0).mergeSort dealLE).take 50) :=
  (C5_amended_sorted_truncated "key" "secret" (PostOutcome.response 200 (.ok ⟨some "tok"⟩))
    oneDealOracle 0 0 "tok" rfl rfl).1

/-- C7 counterexample: an upstream event with every defaultable field absent but
also a missing venue (`_embedded.venues` absent) is not normalized into an
EventRecord — the lookup raises and the event (in fact the whole city batch) is
dropped, instead of defaulting the venue to "TBD". -/
theorem C7_counterexample :
    normalizeEvent "Las Vegas"
      { name := some "Concert", venues := none, localDate := some "2026-10-16",
        localTime := none, priceRanges := none, classifications := none,
        url := none, images := none } = .error () := rfl

/-- C7 (amended): for every upstream event whose name, venue name and local date
are present, the Events fetcher produces an EventRecord even when the remaining
nested fields are missing, defaulting local time to "TBD", minimum and maximum
price to 0, classification segment to "Event", and URL/image URL to the empty
string; a missing event name, venue name or local date instead raises (aborting
that city's batch) — the venue is never defaulted. -/
theorem C7_amended_defaults (city nm vn dt : String) (e : RawEvent)
    (hn : e.name = some nm)
    (hv : ∃ v vs, e.venues = some (v :: vs) ∧ v.venueName = some vn)
    (hd : e.localDate = some dt)
    (ht : e.localTime = none)
    (hp : e.priceRanges = none)
    (hc : e.classifications = none)
    (hu : e.url = none)
    (hi : e.images = none) :
    normalizeEvent city e =
      .ok { name := nm, city := city, venue := vn, date := dt, time := "TBD",
            priceMin := 0, priceMax := 0, category := "Event", url := "",
            imageUrl := "" } := by
  obtain ⟨v, vs, hvs, hvn⟩ := hv
  obtain ⟨en, ev, eld, elt, epr, ecl, eu, eim⟩ := e
  obtain ⟨vne⟩ := v
  simp only at hn hvs hvn hd ht hp hc hu hi
  subst hn hvs hvn hd ht hp hc hu hi
  rfl

theorem C7_amended_defaults_witness :
    normalizeEvent "Las Vegas"
      { name := some "Concert", venues := some [{ venueName := some "The Hall" }],
        localDate := some "2026-10-16", localTime := none, priceRanges := none,
        classifications := none, url := none, images := none } =
      .ok { name := "Concert", city := "Las Vegas", venue := "The Hall",
            date := "2026-10-16", time := "TBD", priceMin := 0, priceMax := 0,
            category := "Event", url := "", imageUrl := "" } :=
  C7_amended_defaults "Las Vegas" "Concert" "The Hall" "2026-10-16" _
    rfl ⟨{ venueName := some "The Hall" }, [], rfl, rfl⟩ rfl rfl rfl rfl rfl rfl

/-- C8: every PlaceRecord produced by the dining/bars normalization has a
`priceLevel` of repeated currency symbols whose length equals the upstream
integer price tier, defaulting to exactly 2 symbols when the tier is absent. -/
theorem C8_price_level (cityName ptype : String) (p : RawPlace) (r : PlaceRecord)
    (h : normalizePlace cityName ptype p = .ok r) :
    r.priceLevel = String.mk (List.replicate (p.price.getD 2) '$') ∧
    r.priceLevel.length = p.price.getD 2 ∧
    (p.price = none → r.priceLevel.length = 2) := by
  unfold normalizePlace at h
  rcases hn : p.name with _ | nm
  · simp [hn] at h
  simp only [hn] at h
  rcases hl : p.location with _ | loc
  · simp [hl] at h
  simp only [hl] at h
  rcases hcs : catNames (p.categories.take 2) with _ | cats
  · simp [hcs] at h
  simp only [hcs] at h
  rcases hf : p.fsq_id with _ | fid
  · simp [hf] at h
  simp only [hf] at h
  injection h with h
  subst h
  refine ⟨rfl, ?_, ?_⟩
  · simp [String.length]
  · intro h0
    simp [h0, String.length]

theorem C8_price_level_witness :
    ({ name := "Cafe", location := "Las Vegas", rating := 9 / 2,
       priceLevel := String.mk (List.replicate 2 '$'), categories := [],
       reviewCount := 10, url := "https://foursquare.com/v/abc",
       type := "dining" } : PlaceRecord).priceLevel.length = 2 :=
  (C8_price_level "Las Vegas" "dining"
    { name := some "Cafe", location := some { locality := some "Las Vegas" },
      rating := some 9, price := none, categories := [], totalRatings := some 10,
      fsq_id := some "abc" } _ rfl).2.2 rfl

/-- With the 1.40 markup, a dollars-and-cents price of at least 1.00 always
yields a rounded savings percentage of at most 29. -/
theorem savingsPctBound (c : ℕ) (hc : 100 ≤ c) :
    rndHalfEven (pyRound2 (pyRound2 ((c : ℚ) / 100 * MARKUP) - (c : ℚ) / 100) /
      pyRound2 ((c : ℚ) / 100 * MARKUP) * 100) ≤ 29 := by
  unfold pyRound2 MARKUP
  have hAeq : ((c : ℚ) / 100 * (140 / 100) * 100) = 7 * (c : ℚ) / 5 := by ring
  rw [hAeq]
  set m := rndHalfEven (7 * (c : ℚ) / 5) with hm
  have hub : (m : ℚ) ≤ 7 * (c : ℚ) / 5 + 1/2 := rndHalfEven_le_add_half _
  have hlb : 7 * (c : ℚ) / 5 - 1/2 ≤ (m : ℚ) := sub_half_le_rndHalfEven _
  have hc' : (100 : ℚ) ≤ (c : ℚ) := by exact_mod_cast hc
  have h139 : (139 : ℤ) < m := by
    have : (139 : ℚ) < (m : ℚ) := by linarith
    exact_mod_cast this
  have hmpos : (0 : ℚ) < (m : ℚ) := by
    have : (0 : ℤ) < m := by omega
    exact_mod_cast this
  have hm0 : (m : ℚ) ≠ 0 := ne_of_gt hmpos
  have hS : ((m : ℚ) / 100 - (c : ℚ) / 100) * 100 = ((m - (c : ℤ) : ℤ) : ℚ) := by
    push_cast
    ring
  rw [hS, rndHalfEven_intCast]
  apply rndHalfEven_le_of_lt_add_half
  push_cast
  have heq2 : ((m : ℚ) - (c : ℚ)) / 100 / ((m : ℚ) / 100) * 100 =
      ((m : ℚ) - (c : ℚ)) * 100 / (m : ℚ) := by
    field_simp
  rw [heq2, div_lt_iff₀ hmpos]
  linarith

/-- C10: on the live path, with the hardcoded 1.40 markup, every
dollars-and-cents price of at least 1.00 gives `savingsPercent ≤ 29` — strictly
below the 35 hot threshold — so every live-fetched FlightDeal has
`isHot = false`; only the fixed sample data can carry `isHot = true`. -/
theorem C10_live_deals_never_hot (origin dest airline : String) (dep ret now : ℕ)
    (c : ℕ) (hc : 100 ≤ c) :
    (mkFlightDeal origin dest ((c : ℚ) / 100) airline dep ret now).savingsPercent ≤ 29 ∧
    (mkFlightDeal origin dest ((c : ℚ) / 100) airline dep ret now).isHot = false := by
  have hb := savingsPctBound c hc
  constructor
  · simpa only [mkFlightDeal] using hb
  · simp only [mkFlightDeal, decide_eq_false_iff_not]
    omega

theorem C10_live_deals_never_hot_witness :
    (mkFlightDeal "LAX" "LAS" ((10000 : ℚ) / 100) "AA" 4 6 0).savingsPercent ≤ 29 ∧
    (mkFlightDeal "LAX" "LAS" ((10000 : ℚ) / 100) "AA" 4 6 0).isHot = false :=
  C10_live_deals_never_hot "LAX" "LAS" "AA" 4 6 0 10000 (by norm_num)

end WeekendRadar
